import Mathlib

/-!
Verification of the scoach/coach job-lifecycle scheduler and execution
supervisor.  The Python source (src/coach/cli.py, src/coach/coach.py,
src/scoach/executor.py) is shallowly embedded below:

* `StatusName` are the canonical lifecycle states from `scoach.constants`
  (`RUN_STATUS_CREATED`, `RUN_STATUS_QUEUED`, `RUN_STATUS_RUNNING`,
  `RUN_STATUS_COMPLETED`, `RUN_STATUS_FAILED`).
* The Prefect flow built in `Executor.execute` is embedded by its
  observable effects: the status writes its tasks perform, the log lines
  it emits, and the terminal `State` that `flow.run()` returns.
* Everything a Python function persists for a run is collected into an
  explicit history list (`List StatusName`), so temporal claims become
  statements about that list.
-/

set_option autoImplicit false

namespace Scoach

/-- Canonical lifecycle states (the `RUN_STATUS_*` constants used by
`executor.py` and `coach.py`). -/
inductive StatusName where
  | created
  | queued
  | running
  | completed
  | failed
  deriving DecidableEq, Repr

/-- The terminal `prefect.engine.state.State` returned by `flow.run()` as the
handler observes it after its `state.is_finished()` wait: Prefect finished
states are `Failed`, `Success`, or another finished state (e.g. `Cancelled`)
that is neither failed nor successful. -/
inductive PrefectState where
  | failed
  | successful
  | otherFinished
  deriving DecidableEq, Repr

/-- Log lines emitted by `executor.py`, identified by their format string. -/
inductive LogEntry where
  | infoRunningLocally
  | infoRunningOnScheduler
  | errorJobFailed (runId : String) (stateResult : String)
  | infoJobCompleted (runId : String)
  | infoExecutingTemplate (rendered : String)
  | infoStdout (s : String)
  | infoStderr (s : String)
  deriving DecidableEq, Repr

/-- The external world a single flow run interacts with: whether each task's
side effects succeed, and the subprocess's observable behaviour.  Note that
`execute_template` (executor.py lines 72-110) waits for the subprocess and
logs its streams but never inspects `subprocessExitCode`; the exit code is
part of the world yet has no influence on any task outcome. -/
structure FlowWorld where
  setupOk : Bool
  updateStatusOk : Bool
  renderOk : Bool
  execTemplateRaises : Bool
  subprocessExitCode : Nat
  subprocessStdout : String
  subprocessStderr : String
  stateResult : String
  deriving DecidableEq, Repr

/-- Terminal state of `flow.run()` for the "Training Flow".  The flow's
reference tasks are its terminal tasks (`setup`, `update_run_status`,
`execute_template`); a failure of `render_template` propagates to
`execute_template` as a trigger failure.  The flow is successful iff every
task succeeded, failed otherwise; the subprocess exit code is never
consulted, so it cannot make the flow fail. -/
def flowState (w : FlowWorld) : PrefectState :=
  if w.setupOk && w.updateStatusOk && w.renderOk && !w.execTemplateRaises then
    PrefectState.successful
  else
    PrefectState.failed

/-- Status writes performed by the flow's own tasks during `flow.run()`:
`update_run_status` (executor.py lines 38-54) gets-or-creates the `running`
Status row and persists it on the Run when its database operations succeed. -/
def flowStatusWrites (w : FlowWorld) : List StatusName :=
  if w.updateStatusOk then [StatusName.running] else []

/-- Log lines emitted by `execute_template` during `flow.run()`: the rendered
template is logged when the task starts (which requires `render_template` to
have succeeded), and stdout/stderr are logged after the subprocess exits,
regardless of its exit code. -/
def flowRunLogs (w : FlowWorld) (rendered : String) : List LogEntry :=
  if !w.renderOk then []
  else if w.execTemplateRaises then [LogEntry.infoExecutingTemplate rendered]
  else [LogEntry.infoExecutingTemplate rendered,
        LogEntry.infoStdout w.subprocessStdout,
        LogEntry.infoStderr w.subprocessStderr]

/-- Result of running `Executor._threaded_execution_handler`: the statuses
persisted for the run so far (oldest first) and the log lines emitted. -/
structure HandlerOut where
  history : List StatusName
  logs : List LogEntry
  deriving DecidableEq, Repr

/-- Embedding of `Executor._threaded_execution_handler` (executor.py lines
123-166).  It first gets-or-creates the `queued` Status and persists it on
the Run, logs which execution path it takes, runs the flow (whose tasks
perform `flowWrites` and emit `fLogs`), waits for a finished state, then on
`state.is_failed()` persists `failed` and logs the failure with
`state.result`; on `state.is_successful()` persists `completed` and logs
success; for any other finished state it writes nothing further. -/
def threadedExecutionHandler (runId : String) (isLocal : Bool)
    (st : PrefectState) (flowWrites : List StatusName) (fLogs : List LogEntry)
    (stateResult : String) (h : List StatusName) : HandlerOut :=
  let h1 := h ++ [StatusName.queued]
  let runLog := if isLocal then LogEntry.infoRunningLocally
                else LogEntry.infoRunningOnScheduler
  let h2 := h1 ++ flowWrites
  match st with
  | PrefectState.failed =>
      ⟨h2 ++ [StatusName.failed],
       runLog :: fLogs ++ [LogEntry.errorJobFailed runId stateResult]⟩
  | PrefectState.successful =>
      ⟨h2 ++ [StatusName.completed],
       runLog :: fLogs ++ [LogEntry.infoJobCompleted runId]⟩
  | PrefectState.otherFinished =>
      ⟨h2, runLog :: fLogs⟩

/-- Outcome of the artifact fetch that `Executor.execute` performs eagerly at
flow-construction time (`minio_client.get_object(bucket, script_path)`,
executor.py lines 183-186): either the template text, or an exception. -/
inductive FetchResult where
  | ok (template : String)
  | error
  deriving DecidableEq, Repr

/-- Embedding of `Executor.execute` (executor.py lines 168-201).  The flow
body's non-task expressions — the Run lookup and the minio `get_object` —
run eagerly inside `execute` itself; if the fetch raises, the exception
propagates out of `execute` before the thread is started and before any
status is written.  Otherwise the thread running
`_threaded_execution_handler` is started and produces all further writes. -/
def Executor.execute (runId : String) (isLocal : Bool) (fetch : FetchResult)
    (w : FlowWorld) (h : List StatusName) : HandlerOut :=
  match fetch with
  | FetchResult.error => ⟨h, []⟩
  | FetchResult.ok t =>
      threadedExecutionHandler runId isLocal (flowState w) (flowStatusWrites w)
        (flowRunLogs w t) w.stateResult h

/-- Statuses persisted for a run over its whole life: `created` is written by
the submission path, and every later write comes from the execution
pipeline dispatched for the run. -/
def runHistory (runId : String) (isLocal : Bool) (fetch : FetchResult)
    (w : FlowWorld) : List StatusName :=
  (Executor.execute runId isLocal fetch w [StatusName.created]).history

/-- Log lines emitted by the pipeline dispatched for a run. -/
def runLogs (runId : String) (isLocal : Bool) (fetch : FetchResult)
    (w : FlowWorld) : List LogEntry :=
  (Executor.execute runId isLocal fetch w [StatusName.created]).logs

/-! ### Status rows and the get-or-create pattern

`executor.py` spells out get-or-create twice (lines 46-54 and 127-135,
and again at 144-165): `safe_object_get(Status, status=name)`; if `None`,
construct `Status(status=name)` and `save()` it.  The primitives
`safe_object_get` and `Status.save` live in `scoach.utils` /
`scoach.models`, which are not part of the sources here, so the store they
act on is modelled from the spec's Persistence Contract. -/

/-- A persisted Status row: a database identity plus the status name. -/
structure StatusRow where
  id : Nat
  status : StatusName
  deriving DecidableEq, Repr

/-- Modelled from the spec: the Persistence Contract's store of Status rows
(`scoach.models.Status` backed by the database, not under src/).  `save` on
a fresh object appends a new row with a fresh identity. -/
structure StatusTable where
  rows : List StatusRow
  nextId : Nat
  deriving DecidableEq, Repr

/-- Modelled from the spec: `safe_object_get(Status, status=name)` from
`scoach.utils` (not under src/) — the Persistence Contract's fetch-by-filter,
returning the matching row or `None` instead of raising. -/
def safe_object_get (t : StatusTable) (name : StatusName) : Option StatusRow :=
  t.rows.find? (fun r => decide (r.status = name))

/-- The get-or-create pattern exactly as written in executor.py lines
127-135: fetch the Status row by name; if absent, create it and save it;
return the row that ends up attached to the Run. -/
def getOrCreateStatus (t : StatusTable) (name : StatusName) :
    StatusTable × StatusRow :=
  match safe_object_get t name with
  | some r => (t, r)
  | none =>
      let r : StatusRow := ⟨t.nextId, name⟩
      (⟨t.rows ++ [r], t.nextId + 1⟩, r)

/-! ### The Coach supervisor (coach.py) -/

/-- A persisted Run as the supervisor sees it: its id and current status. -/
structure RunRecord where
  id : String
  status : StatusName
  deriving DecidableEq, Repr

/-- Embedding of `scoach.scheduler.Scheduler` for identity purposes: the
handle to the execution backend, tagged with a creation counter so that
"the same singleton" is expressible. -/
structure Scheduler where
  sid : Nat
  deriving DecidableEq, Repr

/-- Embedding of the `Executor` object's construction state: it is built
from a `Scheduler` (`Executor(self._scheduler)` in coach.py line 38). -/
structure ExecutorHandle where
  scheduler : Scheduler
  deriving DecidableEq, Repr

/-- The `Coach` instance's mutable fields (coach.py lines 23-27): the lazily
created Scheduler and Executor singletons, plus a counter for fresh
Scheduler identities. -/
structure CoachState where
  scheduler : Option Scheduler
  executor : Option ExecutorHandle
  nextSid : Nat
  deriving DecidableEq, Repr

/-- Embedding of `Coach._initialize_scheduler` (coach.py lines 29-32). -/
def initializeScheduler (s : CoachState) : CoachState :=
  { s with scheduler := some ⟨s.nextSid⟩, nextSid := s.nextSid + 1 }

/-- Embedding of `Coach._initialize_executor` (coach.py lines 34-39): if the
scheduler is absent it is created first, then the executor is constructed
with that scheduler. -/
def initializeExecutor (s : CoachState) : CoachState :=
  let s1 := if s.scheduler.isNone then initializeScheduler s else s
  match s1.scheduler with
  | some sch => { s1 with executor := some ⟨sch⟩ }
  | none => s1

/-- One per-run dispatch step of the loop body (coach.py lines 60-65):
ensure the scheduler singleton, ensure the executor singleton, then call
`self._executor.execute(run.id)`.  Dispatch is fire-and-forget, so the step
only records the id passed to `execute`. -/
def dispatchRun (s : CoachState) (runId : String) : CoachState × String :=
  let s1 := if s.scheduler.isNone then initializeScheduler s else s
  let s2 := if s1.executor.isNone then initializeExecutor s1 else s1
  (s2, runId)

/-- Dispatch every discovered run in order (the `for run in new_runs` loop,
coach.py lines 59-65), collecting the ids handed to `execute`. -/
def dispatchAll (s : CoachState) : List RunRecord → CoachState × List String
  | [] => (s, [])
  | r :: rs =>
      let q := dispatchRun s r.id
      let p := dispatchAll q.1 rs
      (p.1, q.2 :: p.2)

/-- How a poll cycle's body terminates: normally, with the persistence query
raising, or with the dispatch of the k-th discovered run raising. -/
inductive CycleEvent where
  | ok
  | queryError (msg : String)
  | dispatchError (k : Nat) (msg : String)
  deriving DecidableEq, Repr

/-- Observable outcome of one iteration of `Coach._threaded_scheduler`'s
`while True` body (coach.py lines 55-71). -/
structure CycleResult where
  errorLogged : Option String
  sleptSeconds : Nat
  terminated : Bool
  deriving DecidableEq, Repr

/-- Embedding of one iteration of `Coach._threaded_scheduler` (coach.py
lines 47-71).  The body queries all Runs whose status is `created`
(`Run.objects.all().filter(status__status=RUN_STATUS_CREATED)`) and
dispatches each; `except Exception` catches and logs any error from the
query or a dispatch (abandoning the rest of the cycle), and the `finally`
block sleeps `SCHEDULER_SLEEP_TIME` seconds in every case before the loop
continues with the next iteration. -/
def threadedSchedulerCycle (sleepTime : Nat) (ev : CycleEvent)
    (runs : List RunRecord) (s : CoachState) :
    CoachState × List String × CycleResult :=
  match ev with
  | CycleEvent.ok =>
      let newRuns := runs.filter (fun r => decide (r.status = StatusName.created))
      let (s2, ds) := dispatchAll s newRuns
      (s2, ds, ⟨none, sleepTime, false⟩)
  | CycleEvent.queryError msg =>
      (s, [], ⟨some msg, sleepTime, false⟩)
  | CycleEvent.dispatchError k msg =>
      let newRuns := (runs.filter (fun r => decide (r.status = StatusName.created))).take k
      let (s2, ds) := dispatchAll s newRuns
      (s2, ds, ⟨some msg, sleepTime, false⟩)

/-! ### The submission boundary (cli.py `submit`, coach.py `submit_job`) -/

/-- Existence of the three paths the CLI `submit` command checks
(cli.py lines 112-121), plus the config-file check (`check_config`,
cli.py lines 11-20). -/
structure SubmitPaths where
  configExists : Bool
  pythonScriptExists : Bool
  jobConfigExists : Bool
  modelConfigExists : Bool
  deriving DecidableEq, Repr

/-- Modelled from the spec: `Coach.submit_job` (called from cli.py line 131
but not among the sources here).  Per the Submission boundary contract it
persists a new Run in state `created` and returns its run id as a string
immediately, performing no execution work before returning. -/
def submit_job (runs : List RunRecord) (newId : String) : List RunRecord × String :=
  (runs ++ [⟨newId, StatusName.created⟩], newId)

/-- Embedding of the CLI `submit` command (cli.py lines 105-132): refuse
when the config file or any of the three input paths is missing (persisting
nothing), otherwise call `submit_job` and report the returned run id. -/
def cliSubmit (p : SubmitPaths) (runs : List RunRecord) (newId : String) :
    Option (List RunRecord × String) :=
  if !p.configExists then none
  else if !p.pythonScriptExists then none
  else if !p.jobConfigExists then none
  else if !p.modelConfigExists then none
  else some (submit_job runs newId)

/-! ### The operation trace of `Executor.execute` -/

/-- Operations `Executor.execute` performs, distinguishing deferred task
registrations from eagerly executed calls. -/
inductive ExecOp where
  | taskAdd (name : String)
  | minioClientInit
  | envRead (name : String)
  | dbGetRun
  | objectStoreGet
  | logModelConfig
  | jsonParseParameters
  | threadStart
  deriving DecidableEq, Repr

/-- The operations of `Executor.execute` (executor.py lines 168-201) in
source order.  Inside the `with Flow(...)` block only the four `@task`
calls are deferred to `flow.run()`; `get_minio_client()`,
`load_env_as_type(...)`, `safe_object_get(Run, id=run_id)`,
`minio_client.get_object(bucket, script_path).read()`,
`logger.info(model.config)` and `json.loads(run.parameters.config)` are
plain calls executed immediately, before `Thread(...).start()`. -/
def executeOps : List ExecOp :=
  [ExecOp.taskAdd "setup",
   ExecOp.taskAdd "update_run_status",
   ExecOp.minioClientInit,
   ExecOp.envRead "MINIO_BUCKET",
   ExecOp.dbGetRun,
   ExecOp.objectStoreGet,
   ExecOp.logModelConfig,
   ExecOp.jsonParseParameters,
   ExecOp.taskAdd "render_template",
   ExecOp.taskAdd "execute_template",
   ExecOp.threadStart]

/-- The operations `execute` performs synchronously before the handler
thread is started (everything in `executeOps` up to `threadStart`). -/
def executeOpsBeforeThread : List ExecOp :=
  executeOps.takeWhile (fun op => decide (op ≠ ExecOp.threadStart))

/-! ### Helper lemmas -/

/-- The last element of a history that ends in a freshly appended status. -/
theorem getLast?_cons_append_singleton {α : Type} (a b : α) (l : List α) :
    (a :: (l ++ [b])).getLast? = some b := by
  rw [← List.cons_append, List.getLast?_append_cons]
  rfl

/-- A `find?` over an append skips a first segment with no match. -/
theorem find?_append_of_eq_none {α : Type} {p : α → Bool} {l1 l2 : List α}
    (h : l1.find? p = none) : (l1 ++ l2).find? p = l2.find? p := by
  simp [List.find?_append, h]

/-- A Coach state whose singletons are both present and consistently wired:
the Executor was constructed with the Scheduler singleton. -/
def ensured (s : CoachState) : Prop :=
  ∃ sch, s.scheduler = some sch ∧ s.executor = some ⟨sch⟩

/-- A Coach state where an existing Executor was built from the existing
Scheduler; all states reachable from `Coach.__init__` satisfy this. -/
def coherent (s : CoachState) : Bool :=
  match s.executor, s.scheduler with
  | some e, some sch => decide (e.scheduler = sch)
  | some _, none => false
  | none, _ => true

theorem dispatchRun_ensured (s : CoachState) (runId : String)
    (hco : coherent s = true) : ensured (dispatchRun s runId).1 := by
  rcases s with ⟨osch, oexe, n⟩
  rcases osch with _ | sch <;> rcases oexe with _ | ⟨⟨esch⟩⟩ <;>
    simp_all [coherent, ensured, dispatchRun, initializeScheduler,
      initializeExecutor, Option.isNone]

theorem dispatchRun_of_ensured (s : CoachState) (runId : String)
    (h : ensured s) : (dispatchRun s runId).1 = s := by
  rcases h with ⟨sch, hs, he⟩
  simp [dispatchRun, hs, he, Option.isNone]

theorem dispatchAll_ids (s : CoachState) (rs : List RunRecord) :
    (dispatchAll s rs).2 = rs.map (fun r => r.id) := by
  induction rs generalizing s with
  | nil => rfl
  | cons r rs ih => simp [dispatchAll, dispatchRun, ih]

theorem dispatchAll_of_ensured (s : CoachState) (rs : List RunRecord)
    (h : ensured s) : (dispatchAll s rs).1 = s := by
  induction rs with
  | nil => rfl
  | cons r rs ih => simp [dispatchAll, dispatchRun_of_ensured s r.id h, ih]

theorem dispatchAll_ensured (s : CoachState) (rs : List RunRecord)
    (hco : coherent s = true) (hne : rs ≠ []) : ensured (dispatchAll s rs).1 := by
  rcases rs with _ | ⟨r, rs⟩
  · exact absurd rfl hne
  · have h1 : ensured (dispatchRun s r.id).1 := dispatchRun_ensured s r.id hco
    simpa [dispatchAll, dispatchAll_of_ensured _ rs h1] using h1

/-! ### Claim theorems -/

/-- C1 counterexample: a pipeline whose artifact fetch fails raises inside
`Executor.execute` itself, before the handler thread starts and before any
status write, so the Run's final persisted Status is `created`, not
`failed` — the claim as stated is false for fetch failures. -/
theorem fetch_failure_leaves_created :
    (runHistory "run-1" false FetchResult.error
        ⟨true, true, true, false, 0, "", "", ""⟩).getLast?
      = some StatusName.created ∧
    (runHistory "run-1" false FetchResult.error
        ⟨true, true, true, false, 0, "", "", ""⟩).getLast?
      ≠ some StatusName.failed := by
  decide

/-- C1 (amended): a pipeline that fails during render or raises during
script execution leaves the Run's final persisted Status as `failed`, after
having written `queued`; a failure during artifact fetch happens eagerly in
`execute` before any status write, leaving the Run in `created` (never
stuck in `queued`). -/
theorem pipeline_failure_final_status (runId t : String) (isLocal : Bool)
    (w : FlowWorld) (hfail : w.renderOk = false ∨ w.execTemplateRaises = true) :
    (runHistory runId isLocal (FetchResult.ok t) w).getLast?
        = some StatusName.failed ∧
    StatusName.queued ∈ runHistory runId isLocal (FetchResult.ok t) w ∧
    runHistory runId isLocal FetchResult.error w = [StatusName.created] := by
  have hst : flowState w = PrefectState.failed := by
    rcases hfail with h | h <;> simp [flowState, h]
  refine ⟨?_, ?_, rfl⟩ <;>
    simp [runHistory, Executor.execute, threadedExecutionHandler, hst,
      getLast?_cons_append_singleton]

/-- C1 (amended) witness at a concrete render failure. -/
theorem pipeline_failure_final_status_wit :
    (runHistory "r" false (FetchResult.ok "t")
        ⟨true, true, false, false, 0, "", "", "boom"⟩).getLast?
        = some StatusName.failed ∧
    StatusName.queued ∈ runHistory "r" false (FetchResult.ok "t")
        ⟨true, true, false, false, 0, "", "", "boom"⟩ ∧
    runHistory "r" false FetchResult.error
        ⟨true, true, false, false, 0, "", "", "boom"⟩ = [StatusName.created] :=
  pipeline_failure_final_status "r" "t" false
    ⟨true, true, false, false, 0, "", "", "boom"⟩ (Or.inl rfl)

/-- C2 counterexample: a successful pipeline persists
`created, queued, running, completed` — the flow's `update_run_status` task
writes `running` — so the persisted sequence is not a subsequence of
`created, queued, completed` nor of `created, queued, failed`. -/
theorem running_breaks_claimed_subsequence :
    ¬ (List.Sublist
        (runHistory "r" false (FetchResult.ok "t")
          ⟨true, true, true, false, 0, "", "", ""⟩)
        [StatusName.created, StatusName.queued, StatusName.completed] ∨
       List.Sublist
        (runHistory "r" false (FetchResult.ok "t")
          ⟨true, true, true, false, 0, "", "", ""⟩)
        [StatusName.created, StatusName.queued, StatusName.failed]) := by
  decide

/-- C2 (amended): every persisted status sequence of a Run is a subsequence
of `created, queued, running, completed` or of
`created, queued, running, failed`; a terminal status is never written
without `queued` having been written first (`List.indexOf` of an absent
element is the list's length, so each inequality says that whenever a
terminal status occurs in the history, `queued` occurs strictly earlier);
and never are both `completed` and `failed` written for the same Run. -/
theorem history_is_lifecycle_subsequence (runId : String) (isLocal : Bool)
    (fetch : FetchResult) (w : FlowWorld) :
    (List.Sublist (runHistory runId isLocal fetch w)
        [StatusName.created, StatusName.queued, StatusName.running,
         StatusName.completed] ∨
     List.Sublist (runHistory runId isLocal fetch w)
        [StatusName.created, StatusName.queued, StatusName.running,
         StatusName.failed]) ∧
    (runHistory runId isLocal fetch w).indexOf StatusName.queued
      ≤ (runHistory runId isLocal fetch w).indexOf StatusName.completed ∧
    (runHistory runId isLocal fetch w).indexOf StatusName.queued
      ≤ (runHistory runId isLocal fetch w).indexOf StatusName.failed ∧
    ¬ (StatusName.completed ∈ runHistory runId isLocal fetch w ∧
       StatusName.failed ∈ runHistory runId isLocal fetch w) := by
  rcases fetch with t | _
  · rcases w with ⟨su, up, re, ex, code, so, se, res⟩
    cases su <;> cases up <;> cases re <;> cases ex <;>
      refine ⟨?_, ?_, ?_, ?_⟩ <;>
        simp [runHistory, Executor.execute, threadedExecutionHandler,
          flowState, flowStatusWrites]
  · refine ⟨?_, ?_, ?_, ?_⟩ <;> simp [runHistory, Executor.execute]

/-- C5 at the failing input: a pipeline whose rendered script's subprocess
exits with code 1 still ends `completed`, because `execute_template` never
inspects the exit code; stdout and stderr are captured and logged. -/
theorem nonzero_exit_marked_completed :
    (runHistory "r" false (FetchResult.ok "t")
        ⟨true, true, true, false, 1, "out", "err", "res"⟩).getLast?
      = some StatusName.completed ∧
    (runHistory "r" false (FetchResult.ok "t")
        ⟨true, true, true, false, 1, "out", "err", "res"⟩).getLast?
      ≠ some StatusName.failed ∧
    LogEntry.infoStdout "out" ∈ runLogs "r" false (FetchResult.ok "t")
        ⟨true, true, true, false, 1, "out", "err", "res"⟩ ∧
    LogEntry.infoStderr "err" ∈ runLogs "r" false (FetchResult.ok "t")
        ⟨true, true, true, false, 1, "out", "err", "res"⟩ := by
  decide

/-- C6: when the flow's terminal state is failed the handler persists
`failed` as the Run's final status and logs the failure reason taken from
`state.result`; when it is successful the handler persists `completed` and
logs success. -/
theorem backend_terminal_state_persisted (runId stateResult : String)
    (isLocal : Bool) (fw : List StatusName) (fl : List LogEntry)
    (h : List StatusName) :
    ((threadedExecutionHandler runId isLocal PrefectState.failed fw fl
        stateResult h).history.getLast? = some StatusName.failed ∧
     LogEntry.errorJobFailed runId stateResult ∈
       (threadedExecutionHandler runId isLocal PrefectState.failed fw fl
         stateResult h).logs) ∧
    ((threadedExecutionHandler runId isLocal PrefectState.successful fw fl
        stateResult h).history.getLast? = some StatusName.completed ∧
     LogEntry.infoJobCompleted runId ∈
       (threadedExecutionHandler runId isLocal PrefectState.successful fw fl
         stateResult h).logs) := by
  simp [threadedExecutionHandler, getLast?_cons_append_singleton]

/-- C10: if the flow reaches a finished state that is neither failed nor
successful, the handler writes no terminal status: the history gains only
`queued` and the flow's own writes, ending in `running` (or `queued` when
the `update_run_status` task did not succeed), and neither `completed` nor
`failed` is ever persisted. -/
theorem other_finished_writes_no_terminal (runId stateResult : String)
    (isLocal : Bool) (w : FlowWorld) (fl : List LogEntry) :
    (threadedExecutionHandler runId isLocal PrefectState.otherFinished
        (flowStatusWrites w) fl stateResult [StatusName.created]).history
      = [StatusName.created, StatusName.queued] ++ flowStatusWrites w ∧
    (threadedExecutionHandler runId isLocal PrefectState.otherFinished
        (flowStatusWrites w) fl stateResult [StatusName.created]).history.getLast?
      = some (if w.updateStatusOk then StatusName.running else StatusName.queued) ∧
    StatusName.completed ∉
      (threadedExecutionHandler runId isLocal PrefectState.otherFinished
        (flowStatusWrites w) fl stateResult [StatusName.created]).history ∧
    StatusName.failed ∉
      (threadedExecutionHandler runId isLocal PrefectState.otherFinished
        (flowStatusWrites w) fl stateResult [StatusName.created]).history := by
  cases hup : w.updateStatusOk <;>
    simp [threadedExecutionHandler, flowStatusWrites, hup]

/-- C3: when the config file and all three input paths exist, the CLI
submission boundary persists exactly one new Run in state `created` and
returns its run id as a string, performing no execution work before
returning. -/
theorem submit_persists_created_run (p : SubmitPaths) (runs : List RunRecord)
    (newId : String) (hc : p.configExists = true)
    (hs : p.pythonScriptExists = true) (hj : p.jobConfigExists = true)
    (hm : p.modelConfigExists = true) :
    cliSubmit p runs newId
      = some (runs ++ [⟨newId, StatusName.created⟩], newId) := by
  simp [cliSubmit, submit_job, hc, hs, hj, hm]

/-- C3 witness at a concrete submission. -/
theorem submit_persists_created_run_wit :
    cliSubmit ⟨true, true, true, true⟩ [] "id-1"
      = some ([⟨"id-1", StatusName.created⟩], "id-1") :=
  submit_persists_created_run ⟨true, true, true, true⟩ [] "id-1"
    rfl rfl rfl rfl

/-- C4: every iteration of the supervisor loop body sleeps the fixed
configured interval and never terminates the loop; an error raised while
querying or while dispatching is caught and logged, a successful cycle logs
no error. -/
theorem scheduler_cycle_always_sleeps (sleepTime : Nat) (ev : CycleEvent)
    (runs : List RunRecord) (s : CoachState) :
    (threadedSchedulerCycle sleepTime ev runs s).2.2.sleptSeconds = sleepTime ∧
    (threadedSchedulerCycle sleepTime ev runs s).2.2.terminated = false ∧
    (threadedSchedulerCycle sleepTime ev runs s).2.2.errorLogged
      = (match ev with
         | CycleEvent.ok => none
         | CycleEvent.queryError m => some m
         | CycleEvent.dispatchError _ m => some m) := by
  cases ev <;> simp [threadedSchedulerCycle]

/-- C7: an error-free poll cycle hands to `execute` exactly the ids of the
Runs whose status is `created`, once each and in query order, and afterwards
the Scheduler and Executor singletons exist with the Executor constructed
from the Scheduler. -/
theorem poll_cycle_dispatches_created_runs (sleepTime : Nat)
    (runs : List RunRecord) (s : CoachState) (hco : coherent s = true)
    (hne : runs.filter (fun r => decide (r.status = StatusName.created)) ≠ []) :
    (threadedSchedulerCycle sleepTime CycleEvent.ok runs s).2.1
      = (runs.filter (fun r => decide (r.status = StatusName.created))).map
          (fun r => r.id) ∧
    ∃ sch,
      (threadedSchedulerCycle sleepTime CycleEvent.ok runs s).1.scheduler
        = some sch ∧
      (threadedSchedulerCycle sleepTime CycleEvent.ok runs s).1.executor
        = some ⟨sch⟩ := by
  refine ⟨?_, ?_⟩
  · simpa [threadedSchedulerCycle] using dispatchAll_ids s _
  · have := dispatchAll_ensured s _ hco hne
    rcases this with ⟨sch, h1, h2⟩
    exact ⟨sch, by simpa [threadedSchedulerCycle] using h1,
      by simpa [threadedSchedulerCycle] using h2⟩

/-- C7 witness: a cycle over one `created` and one `queued` run from the
freshly initialized Coach state. -/
theorem poll_cycle_dispatches_created_runs_wit :
    (threadedSchedulerCycle 5 CycleEvent.ok
        [⟨"a", StatusName.created⟩, ⟨"b", StatusName.queued⟩]
        ⟨none, none, 0⟩).2.1
      = (([⟨"a", StatusName.created⟩, ⟨"b", StatusName.queued⟩] :
            List RunRecord).filter
          (fun r => decide (r.status = StatusName.created))).map
          (fun r => r.id) ∧
    ∃ sch,
      (threadedSchedulerCycle 5 CycleEvent.ok
          [⟨"a", StatusName.created⟩, ⟨"b", StatusName.queued⟩]
          ⟨none, none, 0⟩).1.scheduler = some sch ∧
      (threadedSchedulerCycle 5 CycleEvent.ok
          [⟨"a", StatusName.created⟩, ⟨"b", StatusName.queued⟩]
          ⟨none, none, 0⟩).1.executor = some ⟨sch⟩ :=
  poll_cycle_dispatches_created_runs 5
    [⟨"a", StatusName.created⟩, ⟨"b", StatusName.queued⟩]
    ⟨none, none, 0⟩ rfl (by decide)

/-- C8: the get-or-create-by-name pattern of executor.py is idempotent —
running it a second time with the same name returns the same Status row and
leaves the table unchanged — and it never produces a duplicate row: the
number of rows carrying the name afterwards is one when there was none,
and unchanged otherwise. -/
theorem getOrCreateStatus_idempotent (t : StatusTable) (name : StatusName) :
    (getOrCreateStatus (getOrCreateStatus t name).1 name).2
      = (getOrCreateStatus t name).2 ∧
    (getOrCreateStatus (getOrCreateStatus t name).1 name).1
      = (getOrCreateStatus t name).1 ∧
    (getOrCreateStatus t name).1.rows.countP (fun r => decide (r.status = name))
      = (if t.rows.countP (fun r => decide (r.status = name)) = 0 then 1
         else t.rows.countP (fun r => decide (r.status = name))) := by
  rcases hf : safe_object_get t name with _ | r
  · have hfind : t.rows.find? (fun x => decide (x.status = name)) = none := hf
    have hcount0 : t.rows.countP (fun x => decide (x.status = name)) = 0 := by
      rw [List.countP_eq_zero]
      intro a ha
      have := List.find?_eq_none.mp hfind a ha
      simpa using this
    have hf2 : safe_object_get
        (⟨t.rows ++ [⟨t.nextId, name⟩], t.nextId + 1⟩ : StatusTable) name
        = some ⟨t.nextId, name⟩ := by
      simp only [safe_object_get]
      rw [find?_append_of_eq_none hfind]
      simp [List.find?]
    refine ⟨?_, ?_, ?_⟩
    · simp [getOrCreateStatus, hf, hf2]
    · simp [getOrCreateStatus, hf, hf2]
    · simp [getOrCreateStatus, hf, List.countP_append, List.countP_cons,
        hcount0]
  · have hfind : t.rows.find? (fun x => decide (x.status = name)) = some r := hf
    have hp := List.find?_some hfind
    have hpos : 0 < t.rows.countP (fun x => decide (x.status = name)) :=
      List.countP_pos_iff.mpr ⟨r, List.mem_of_find?_eq_some hfind, hp⟩
    have h1 : getOrCreateStatus t name = (t, r) := by
      simp [getOrCreateStatus, hf]
    simp [h1, getOrCreateStatus, hf, Nat.pos_iff_ne_zero.mp hpos]

/-- C9 counterexample: `Executor.execute` performs the Run lookup (a
blocking persistence read) and the minio `get_object` (a blocking
object-store read) eagerly, before the handler thread is started — the
claim that `execute` returns without performing any blocking persistence or
object-store operation is false. -/
theorem execute_blocks_before_thread :
    ExecOp.dbGetRun ∈ executeOpsBeforeThread ∧
    ExecOp.objectStoreGet ∈ executeOpsBeforeThread := by
  decide

/-- C9 (amended): starting the handler thread is the last operation of
`execute`, and every status transition of a dispatched pipeline is
performed by the handler running in that thread; but the flow-body
expressions that are not tasks — the Run lookup and the artifact fetch —
execute synchronously inside `execute` before the thread starts. -/
theorem execute_thread_is_last_op :
    executeOps = executeOpsBeforeThread ++ [ExecOp.threadStart] ∧
    ExecOp.dbGetRun ∈ executeOpsBeforeThread ∧
    ExecOp.objectStoreGet ∈ executeOpsBeforeThread ∧
    ∀ (runId t : String) (isLocal : Bool) (w : FlowWorld)
      (h : List StatusName),
      Executor.execute runId isLocal (FetchResult.ok t) w h
        = threadedExecutionHandler runId isLocal (flowState w)
            (flowStatusWrites w) (flowRunLogs w t) w.stateResult h := by
  refine ⟨by decide, by decide, by decide, ?_⟩
  intro runId t isLocal w h
  rfl

end Scoach
